import Mathlib

/-!
Shallow embedding of the orchestration core of the gen-article desktop app
(src/src-tauri/src/lib.rs): the project registry over the settings store, the
WordPress client commands, the resilient media-upload retry loop, and the
LLM-assisted placeholder commands.

Modelling conventions:
* The persistent `projects` value is modelled as an association list
  `List (String × ProjectSettings)`; the store reload/save plumbing and the
  Tauri `AppHandle` are outside the logic being verified, so each command is a
  function of the projects map it reloads plus its inputs.
* Network interactions are modelled by environment values: each command takes
  the outcome of the HTTP exchange(s) it performs (send error, status code,
  body text, and the serde parse result of the body) as an explicit argument.
  The bytes actually placed in a request (prompts, payload JSON, upload
  headers) do not influence the command's own control flow, so they are
  absorbed into the environment.
* Rust `String` values are Lean `String`s; where byte-level slicing matters
  (`&api_key[..10]`), the key is modelled as its UTF-8 byte list.
* Error strings reproduce the `format!` strings of the source (apostrophes
  written with escapes).
-/

deriving instance DecidableEq for Except

namespace GenArticle

/-- Rust `str::trim`: drop leading and trailing whitespace. -/
def rustTrim (s : String) : String :=
  String.mk
    (((s.data.dropWhile Char.isWhitespace).reverse.dropWhile
        Char.isWhitespace).reverse)

/-- Rust `s.trim().is_empty()`: the string has no non-whitespace character. -/
def trimIsEmpty (s : String) : Bool :=
  (rustTrim s).data.isEmpty

/-- Mirrors `SectionDefinitionData` in lib.rs. -/
structure SectionDefinitionData where
  instructions : String
deriving Repr, DecidableEq

/-- Mirrors `ProjectSettings` in lib.rs (`target_word_count: u32` as `Nat`). -/
structure ProjectSettings where
  wordpress_url : String
  wordpress_user : String
  wordpress_pass : String
  tool_name : String
  article_goal_prompt : String
  example_url : String
  sections : List SectionDefinitionData
  text_generation_model : String
  target_word_count : Nat
deriving Repr, DecidableEq

/-- `fn default_string()` in lib.rs. -/
def default_string : String := ""

/-- `fn default_sections()` in lib.rs. -/
def default_sections : List SectionDefinitionData := []

/-- `fn default_text_model()` in lib.rs. -/
def default_text_model : String := "gpt-4o"

/-- `fn default_word_count()` in lib.rs. -/
def default_word_count : Nat := 1000

/-- `type ProjectsMap = HashMap<String, ProjectSettings>` modelled as an
association list (lookup takes the first binding of a key). -/
abbrev ProjectsMap : Type := List (String × ProjectSettings)

/-- `HashMap::contains_key`. -/
def mapContains (m : ProjectsMap) (name : String) : Bool :=
  m.any (fun p => p.1 == name)

/-- `HashMap::get(&name).cloned()`. -/
def mapGet (m : ProjectsMap) (name : String) : Option ProjectSettings :=
  (m.find? (fun p => p.1 == name)).map (fun p => p.2)

/-- `HashMap::insert(name, v)` (replaces any existing binding of the key). -/
def mapInsert (m : ProjectsMap) (name : String) (v : ProjectSettings) : ProjectsMap :=
  (name, v) :: m.filter (fun p => !(p.1 == name))

/-- `HashMap::remove(&name)` on the map contents. -/
def mapRemove (m : ProjectsMap) (name : String) : ProjectsMap :=
  m.filter (fun p => !(p.1 == name))

/-- The `default_settings` record built inside `create_project` for a new
project `name` (the project name seeds `tool_name`). -/
def defaultSettings (name : String) : ProjectSettings :=
  { wordpress_url := default_string
    wordpress_user := default_string
    wordpress_pass := default_string
    tool_name := name
    article_goal_prompt := default_string
    example_url := default_string
    sections := default_sections
    text_generation_model := default_text_model
    target_word_count := default_word_count }

/-- Error string of `create_project` for an empty/whitespace name. -/
def invalidNameMsg : String := "Project name cannot be empty"

/-- Error string of `create_project` for a name already present. -/
def alreadyExistsMsg (name : String) : String :=
  "Project \x27" ++ name ++ "\x27 already exists."

/-- Error string of `save_project_settings` / `delete_project` for a missing name. -/
def notFoundMsg (name : String) : String :=
  "Project \x27" ++ name ++ "\x27 not found."

/-- `create_project` (lib.rs 289-330): reject empty/whitespace names, reject
existing names, otherwise insert the default record. -/
def create_project (m : ProjectsMap) (name : String) : Except String ProjectsMap :=
  if trimIsEmpty name then .error invalidNameMsg
  else if mapContains m name then .error (alreadyExistsMsg name)
  else .ok (mapInsert m name (defaultSettings name))

/-- `get_projects` (lib.rs 332-346): collect the key set and
`sort_unstable` it; sorting is modelled by `List.insertionSort (· ≤ ·)`,
which also produces the unique ≤-sorted permutation of the keys. -/
def get_projects (m : ProjectsMap) : List String :=
  List.insertionSort (· ≤ ·) (m.map Prod.fst)

/-- `get_project_settings` (lib.rs 348-363): lookup, absence is not an error. -/
def get_project_settings (m : ProjectsMap) (name : String) : Option ProjectSettings :=
  mapGet m name

/-- `save_project_settings` (lib.rs 365-395): wholesale replace of an existing
record. -/
def save_project_settings (m : ProjectsMap) (name : String)
    (settings : ProjectSettings) : Except String ProjectsMap :=
  if mapContains m name then .ok (mapInsert m name settings)
  else .error (notFoundMsg name)

/-- `delete_project` (lib.rs 397-446): remove an existing record. -/
def delete_project (m : ProjectsMap) (name : String) : Except String ProjectsMap :=
  if mapContains m name then .ok (mapRemove m name)
  else .error (notFoundMsg name)

/-! ## WordPress client commands -/

/-- `reqwest::StatusCode::is_success()`: 200 ≤ status ≤ 299. -/
def statusIsSuccess (status : Nat) : Bool :=
  200 ≤ status && status < 300

/-- Mirrors `WordPressCategory` in lib.rs. -/
structure WordPressCategory where
  id : Nat
  name : String
  slug : String
deriving Repr, DecidableEq

/-- Mirrors `WordPressMediaResponse` in lib.rs. -/
structure WordPressMediaResponse where
  id : Nat
  source_url : String
deriving Repr, DecidableEq

/-- Mirrors `ImageUploadResult` in lib.rs. -/
structure ImageUploadResult where
  original_url : String
  success : Bool
  error : Option String
  wordpress_media_id : Option Nat
  wordpress_media_url : Option String
deriving Repr, DecidableEq

/-- Error string shared by the three WordPress commands when the project
settings leave URL, user, or application password blank. -/
def wpNotConfiguredMsg : String :=
  "WordPress URL, User, and Application Password must be configured."

/-- Error string when `get_project_settings` finds no record for the project. -/
def settingsNotFoundMsg (project_name : String) : String :=
  "Settings not found for project \x27" ++ project_name ++ "\x27"

/-- The blank-credentials test used by `get_wordpress_categories` and
`upload_images_to_wordpress` (and, field by field, by `publish_to_wordpress`). -/
def wpBlank (s : ProjectSettings) : Bool :=
  trimIsEmpty s.wordpress_url || trimIsEmpty s.wordpress_user ||
    trimIsEmpty s.wordpress_pass

/-- Outcome of the single HTTP exchange of `get_wordpress_categories`:
send failure, or a response with status, the serde parse result of a 2xx
body, and the text body read on a non-2xx status. -/
inductive CategoriesNet where
  | sendErr (msg : String)
  | resp (status : Nat) (parsed : Except String (List WordPressCategory))
      (body : String)
deriving Repr

/-- `get_wordpress_categories` (lib.rs 812-876): settings lookup, blank-field
guard before any network interaction, then one GET whose 2xx body must parse
as a category list. -/
def get_wordpress_categories (settings : Option ProjectSettings)
    (project_name : String) (net : CategoriesNet) :
    Except String (List WordPressCategory) :=
  match settings with
  | none => .error (settingsNotFoundMsg project_name)
  | some s =>
    if wpBlank s then .error wpNotConfiguredMsg
    else
      match net with
      | .sendErr e =>
          .error ("Failed to send request to WordPress Categories API: " ++ e)
      | .resp status parsed body =>
        if statusIsSuccess status then
          match parsed with
          | .ok categories => .ok categories
          | .error e => .error ("Failed to parse WordPress categories JSON: " ++ e)
        else
          .error ("Failed to fetch categories (Status " ++ toString status ++
            "): " ++ body)

/-- Outcome of the single HTTP exchange of `publish_to_wordpress` (the post
is read only as text, so no parse component). -/
inductive PublishNet where
  | sendErr (msg : String)
  | resp (status : Nat) (body : String)
deriving Repr

/-- The publish-status defaulting of `publish_to_wordpress`: keep the request
value only when it is one of publish/draft/pending. -/
def resolvePublishStatus (requested : Option String) : String :=
  match requested with
  | some v => if v = "publish" || v = "draft" || v = "pending" then v else "publish"
  | none => "publish"

/-- Success message of `publish_to_wordpress`. -/
def publishSuccessMsg (status : String) (category_id : Option Nat) : String :=
  "Article successfully published to WordPress with status \x27" ++ status ++
    "\x27" ++
    (match category_id with
     | some id => " in category ID " ++ toString id
     | none => "") ++ "!"

/-- `publish_to_wordpress` (lib.rs 878-981): settings lookup, the three
blank-field guards in source order, then one POST. The title extracted from
the article HTML only feeds the request payload (absorbed into `net`). -/
def publish_to_wordpress (settings : Option ProjectSettings)
    (project_name : String) (publish_status : Option String)
    (category_id : Option Nat) (net : PublishNet) : Except String String :=
  match settings with
  | none => .error (settingsNotFoundMsg project_name)
  | some s =>
    if trimIsEmpty s.wordpress_url then
      .error "WordPress URL is not configured in project settings."
    else if trimIsEmpty s.wordpress_user then
      .error "WordPress User is not configured in project settings."
    else if trimIsEmpty s.wordpress_pass then
      .error "WordPress Application Password is not configured."
    else
      match net with
      | .sendErr e => .error ("Failed to send request to WordPress API: " ++ e)
      | .resp status body =>
        if statusIsSuccess status then
          .ok (publishSuccessMsg (resolvePublishStatus publish_status) category_id)
        else
          .error ("WordPress API request failed with status " ++
            toString status ++ ": " ++ body)

/-! ## Resilient upload (process_single_image_upload) -/

/-- `MAX_RETRIES` in `process_single_image_upload`. -/
def MAX_RETRIES : Nat := 4

/-- `INITIAL_BACKOFF_SECS` in `process_single_image_upload`. -/
def INITIAL_BACKOFF_SECS : Nat := 10

/-- The `Retry-After` header of a 429 response as the retry loop sees it:
absent, present but not readable/parseable as a `u64` second count, or parsed
to `n` seconds. -/
inductive RetryAfterHeader where
  | absent
  | invalid
  | parsed (n : Nat)
deriving Repr, DecidableEq

/-- `INITIAL_BACKOFF_SECS * 2u64.pow(attempts - 1)`. -/
def backoffSecs (attempts : Nat) : Nat :=
  INITIAL_BACKOFF_SECS * 2 ^ (attempts - 1)

/-- The wait in seconds chosen on a 429 received on attempt `attempts`:
the `Retry-After` value floored at one second when parseable, otherwise the
exponential backoff. -/
def retryWaitSecs (attempts : Nat) : RetryAfterHeader → Nat
  | .parsed n => max n 1
  | .invalid => backoffSecs attempts
  | .absent => backoffSecs attempts

/-- Outcome of one upload POST inside the retry loop: send failure, or a
response with status, `Retry-After` header, serde parse result of a 200/201
body, and the text body (read on the final 429 and on other error statuses). -/
inductive UploadAttemptOutcome where
  | sendErr (msg : String)
  | resp (status : Nat) (retryAfter : RetryAfterHeader)
      (parsed : Except String WordPressMediaResponse) (body : String)
deriving Repr

/-- The failure record every error path of `process_single_image_upload`
returns. -/
def uploadFailure (image_url msg : String) : ImageUploadResult :=
  { original_url := image_url
    success := false
    error := some msg
    wordpress_media_id := none
    wordpress_media_url := none }

/-- The retry loop of `process_single_image_upload` (lib.rs 1130-1270).
`env k` is the outcome of the k-th POST (k starts at 1); `attempts` is the
loop counter before its increment at the top of the iteration. Returns the
result together with the list of waits (in seconds) performed before
retries, in order. -/
def uploadLoop (image_url : String) (env : Nat → UploadAttemptOutcome)
    (attempts : Nat) : ImageUploadResult × List Nat :=
  let a := attempts + 1
  match env a with
  | .sendErr e =>
      (uploadFailure image_url
        ("Failed to send upload request (Attempt " ++ toString a ++ "): " ++ e),
       [])
  | .resp status retryAfter parsed body =>
    if status = 200 || status = 201 then
      match parsed with
      | .ok wp_media =>
          ({ original_url := image_url
             success := true
             error := none
             wordpress_media_id := some wp_media.id
             wordpress_media_url := some wp_media.source_url }, [])
      | .error e =>
          (uploadFailure image_url
            ("Failed to parse successful WP media response (Attempt " ++
              toString a ++ "): " ++ e), [])
    else if status = 429 then
      if _h : MAX_RETRIES ≤ a then
        (uploadFailure image_url
          ("Upload failed after " ++ toString a ++
            " attempts due to rate limiting (429)."), [])
      else
        let w := retryWaitSecs a retryAfter
        let rest := uploadLoop image_url env a
        (rest.1, w :: rest.2)
    else
      (uploadFailure image_url
        ("WordPress media upload failed (Attempt " ++ toString a ++
          ") with status " ++ toString status ++ ": " ++ body), [])
termination_by MAX_RETRIES - attempts
decreasing_by
  simp only [MAX_RETRIES] at *
  omega

/-- Outcome of the source-image download at the top of
`process_single_image_upload`: send failure, or a response with status and the
result of reading the body bytes. The bytes themselves only feed the upload
request (absorbed into the upload environment), so only the read outcome is
kept. -/
inductive DownloadOutcome where
  | sendErr (msg : String)
  | resp (status : Nat) (bytesRead : Except String Unit)
deriving Repr

/-- Everything the network decides for one image inside the upload stage. -/
structure ImageEnv where
  download : DownloadOutcome
  upload : Nat → UploadAttemptOutcome

/-- `process_single_image_upload` (lib.rs 1035-1271): download the image
bytes (each download failure is terminal for this image, no retry), then run
the retry loop. Filename/MIME derivation only shapes the upload request and
is absorbed into the environment. Returns the result and the waits performed. -/
def process_single_image_upload (image_url : String) (env : ImageEnv) :
    ImageUploadResult × List Nat :=
  match env.download with
  | .sendErr e =>
      (uploadFailure image_url
        ("Failed to start download for " ++ image_url ++ ": " ++ e), [])
  | .resp status bytesRead =>
    if statusIsSuccess status then
      match bytesRead with
      | .error e =>
          (uploadFailure image_url
            ("Failed to read image bytes from " ++ image_url ++ ": " ++ e), [])
      | .ok _ => uploadLoop image_url env.upload 0
    else
      (uploadFailure image_url
        ("Failed to download image from " ++ image_url ++ ": Status " ++
          toString status), [])

/-- The `for (index, image_url) in request.image_urls.iter().enumerate()` loop
of `upload_images_to_wordpress`: one `process_single_image_upload` per URL, in
order, pushing every result. `envs i` is the network environment of the image
at index `i`; `i` is the index of the head of the remaining list. -/
def uploadBatch (envs : Nat → ImageEnv) (i : Nat) :
    List String → List ImageUploadResult
  | [] => []
  | image_url :: rest =>
      (process_single_image_upload image_url (envs i)).1 :: uploadBatch envs (i + 1) rest

/-- `upload_images_to_wordpress` (lib.rs 983-1033): settings lookup,
blank-field guard before any network interaction, then the per-image loop. -/
def upload_images_to_wordpress (settings : Option ProjectSettings)
    (project_name : String) (image_urls : List String)
    (envs : Nat → ImageEnv) : Except String (List ImageUploadResult) :=
  match settings with
  | none => .error (settingsNotFoundMsg project_name)
  | some s =>
    if wpBlank s then .error wpNotConfiguredMsg
    else .ok (uploadBatch envs 0 image_urls)

/-! ## OpenAI-backed commands -/

/-- Mirrors `OpenAiMessage` in lib.rs. -/
structure OpenAiMessage where
  role : Option String
  content : String
deriving Repr, DecidableEq

/-- Mirrors `OpenAiApiResponseChoice` in lib.rs. -/
structure OpenAiApiResponseChoice where
  message : OpenAiMessage
deriving Repr, DecidableEq

/-- Mirrors `OpenAiApiResponse` in lib.rs. -/
structure OpenAiApiResponse where
  choices : List OpenAiApiResponseChoice
deriving Repr, DecidableEq

/-- Outcome of one OpenAI chat-completions exchange as the commands consume
it: send failure, body-read failure, or a response with status, body text,
and the serde parse result of the body as `OpenAiApiResponse`. -/
inductive OpenAiNet where
  | sendErr (msg : String)
  | readErr (msg : String)
  | resp (status : Nat) (body : String) (parsed : Except String OpenAiApiResponse)
deriving Repr

/-- Error string when the text API key is absent from the store. -/
def textKeyMissingMsg : String :=
  "OpenAI API Key (textApiKey) not found in store."

/-- `str::is_char_boundary` of Rust on a UTF-8 byte list: true at 0, at the
length, and at any index holding a non-continuation byte (< 0x80 or ≥ 0xC0). -/
def isUtf8Boundary (bytes : List Nat) (i : Nat) : Bool :=
  if i = 0 then true
  else
    match bytes[i]? with
    | some b => decide (b < 128 ∨ 192 ≤ b)
    | none => decide (i = bytes.length)

/-- Rust `&s[..k]` on a UTF-8 byte list: `none` models the panic raised when
`k` is out of bounds or not a character boundary. -/
def byteSliceUpTo (bytes : List Nat) (k : Nat) : Option (List Nat) :=
  if isUtf8Boundary bytes k then some (bytes.take k) else none

/-- `generate_full_article` (lib.rs 542-678) with the stored text API key as
its UTF-8 byte list. The unguarded `&api_key[..10]` in the key-logging
statement runs before anything else: `none` models its panic. Prompt assembly
only feeds the request payload (absorbed into `net`); the successful result is
the extracted `choices[0].message.content`. -/
def generate_full_article (api_key : Option (List Nat)) (net : OpenAiNet) :
    Option (Except String String) :=
  match api_key with
  | none => some (.error textKeyMissingMsg)
  | some key =>
    match byteSliceUpTo key 10 with
    | none => none
    | some _ =>
      if key.isEmpty then some (.error "Fetched OpenAI API key is empty")
      else
        match net with
        | .sendErr e => some (.error ("Failed to send request to OpenAI: " ++ e))
        | .readErr e => some (.error ("Failed to read OpenAI response body: " ++ e))
        | .resp status body parsed =>
          if statusIsSuccess status then
            match parsed with
            | .ok parsed_response =>
              match parsed_response.choices.head? with
              | some choice => some (.ok choice.message.content)
              | none => some (.error "OpenAI response has no choices")
            | .error e =>
                some (.error
                  ("Failed to parse OpenAI response into expected structure: " ++ e))
          else
            some (.error ("OpenAI API request failed with status " ++
              toString status ++ ": " ++ body))

/-- `suggest_image_prompts` (lib.rs 680-810). `parseStringArray` models
`serde_json::from_str::<Vec<String>>` (applied once to the extracted choice
content and, on primary-shape failure, to the raw body as a fallback). -/
def suggest_image_prompts (api_key : Option String) (net : OpenAiNet)
    (parseStringArray : String → Except String (List String)) :
    Except String (List String) :=
  match api_key with
  | none => .error textKeyMissingMsg
  | some _ =>
    match net with
    | .sendErr e => .error ("Failed to send request to OpenAI: " ++ e)
    | .readErr e => .error ("Failed to read OpenAI response body: " ++ e)
    | .resp status body parsed =>
      if statusIsSuccess status then
        match parsed with
        | .ok parsed_response =>
          match parsed_response.choices.head? with
          | some choice =>
            match parseStringArray choice.message.content with
            | .ok prompts => .ok prompts
            | .error e =>
                .error
                  ("LLM response content was not a valid JSON array of strings: " ++ e)
          | none => .error "OpenAI response structure unexpected (no choices)"
        | .error e =>
          match parseStringArray body with
          | .ok prompts => .ok prompts
          | .error fallback_e =>
              .error ("Failed to parse OpenAI response: " ++ e ++
                ". Fallback failed: " ++ fallback_e)
      else
        .error ("OpenAI API request failed with status " ++ toString status ++
          ": " ++ body)

/-- Mirrors `ImageDetailsForLLM` in lib.rs. -/
structure ImageDetailsForLLM where
  wordpress_media_url : String
  wordpress_media_id : Nat
  alt_text : String
  placeholder_index : Nat
deriving Repr, DecidableEq

/-- `get_article_with_image_placeholders_llm` (lib.rs 1273-1401): with no
images the article passes through unchanged before any key fetch or network
use; otherwise one chat call whose parsed `choices[0].message.content` is
returned trimmed — and whose body is returned trimmed as a success when the
2xx body fails to parse. -/
def get_article_with_image_placeholders_llm (article_html : String)
    (images : List ImageDetailsForLLM) (api_key : Option String)
    (net : OpenAiNet) : Except String String :=
  if images.isEmpty then .ok article_html
  else
    match api_key with
    | none => .error textKeyMissingMsg
    | some _ =>
      match net with
      | .sendErr e => .error ("Failed to send request to OpenAI: " ++ e)
      | .readErr e => .error ("Failed to read OpenAI response body: " ++ e)
      | .resp status body parsed =>
        if statusIsSuccess status then
          match parsed with
          | .ok parsed_response =>
            match parsed_response.choices.head? with
            | some choice => .ok (rustTrim choice.message.content)
            | none =>
                .error "OpenAI response successful but \x27choices\x27 array was empty."
          | .error _ => .ok (rustTrim body)
        else
          .error ("OpenAI API request failed with status " ++ toString status ++
            ": " ++ body)

/-- The placeholder token `[INSERT_IMAGE_HERE_{i}]` the prompt instructs the
LLM to insert for image `i`. -/
def placeholderToken (i : Nat) : String :=
  "[INSERT_IMAGE_HERE_" ++ toString i ++ "]"

/-- Number of positions of `s` at which `pat` occurs. -/
def countOccurrences (s pat : String) : Nat :=
  ((List.range s.data.length).filter
    (fun i => (s.data.drop i).take pat.data.length == pat.data)).length

/-! ## Claims -/

/-- C9: for every article HTML input, `get_article_with_image_placeholders_llm`
with an empty image list succeeds and returns the article completely
unchanged, whatever the stored key or network would have done. -/
theorem placeholders_identity_on_empty_images (article_html : String)
    (api_key : Option String) (net : OpenAiNet) :
    get_article_with_image_placeholders_llm article_html [] api_key net =
      .ok article_html := rfl

/-- C3: `get_projects` returns the project names sorted lexicographically,
its output contains exactly the stored names, and it is invariant under the
order in which the projects map stores its entries. -/
theorem get_projects_sorted (m m2 : ProjectsMap)
    (hperm : (m.map Prod.fst).Perm (m2.map Prod.fst)) :
    (get_projects m).Sorted (· ≤ ·) ∧
    (∀ n, n ∈ get_projects m ↔ n ∈ m.map Prod.fst) ∧
    get_projects m = get_projects m2 := by
  refine ⟨List.sorted_insertionSort _ _, fun n => List.mem_insertionSort _, ?_⟩
  have hp : (get_projects m).Perm (get_projects m2) :=
    ((List.perm_insertionSort _ _).trans hperm).trans
      (List.perm_insertionSort _ _).symm
  exact List.eq_of_perm_of_sorted hp (List.sorted_insertionSort _ _)
    (List.sorted_insertionSort _ _)

/-- C3 witness: two stores with the same projects in opposite insertion
order give the same sorted listing. -/
theorem get_projects_sorted_witness :
    (get_projects [("b", defaultSettings "b"), ("a", defaultSettings "a")]).Sorted
        (· ≤ ·) ∧
    (∀ n, n ∈ get_projects [("b", defaultSettings "b"), ("a", defaultSettings "a")] ↔
      n ∈ ([("b", defaultSettings "b"), ("a", defaultSettings "a")] : ProjectsMap).map
        Prod.fst) ∧
    get_projects [("b", defaultSettings "b"), ("a", defaultSettings "a")] =
      get_projects [("a", defaultSettings "a"), ("b", defaultSettings "b")] :=
  get_projects_sorted
    [("b", defaultSettings "b"), ("a", defaultSettings "a")]
    [("a", defaultSettings "a"), ("b", defaultSettings "b")]
    (by decide)

/-- C4: `create_project` rejects empty/whitespace-only names with the
invalid-name error; on a non-blank name already present it rejects with the
already-exists error; otherwise it inserts the default record (name seeding
`tool_name`), so that a following `get_project_settings` returns exactly the
default record. -/
theorem create_project_correct (m : ProjectsMap) (name : String) :
    (trimIsEmpty name = true → create_project m name = .error invalidNameMsg) ∧
    (trimIsEmpty name = false → mapContains m name = true →
      create_project m name = .error (alreadyExistsMsg name)) ∧
    (trimIsEmpty name = false → mapContains m name = false →
      create_project m name = .ok (mapInsert m name (defaultSettings name)) ∧
      get_project_settings (mapInsert m name (defaultSettings name)) name =
        some (defaultSettings name) ∧
      defaultSettings name =
        { wordpress_url := "", wordpress_user := "", wordpress_pass := "",
          tool_name := name, article_goal_prompt := "", example_url := "",
          sections := [], text_generation_model := "gpt-4o",
          target_word_count := 1000 }) := by
  refine ⟨fun h1 => ?_, fun h1 h2 => ?_, fun h1 h2 => ⟨?_, ?_, ?_⟩⟩
  · simp [create_project, h1]
  · simp [create_project, h1, h2]
  · simp [create_project, h1, h2]
  · simp [get_project_settings, mapGet, mapInsert, List.find?]
  · simp [defaultSettings, default_string, default_sections, default_text_model,
      default_word_count]

/-- C4 witness: a whitespace-only name is rejected, and creating a fresh
project then reading it back yields the default record. -/
theorem create_project_correct_witness :
    create_project [] "  " = .error invalidNameMsg ∧
    (create_project [] "Acme" =
        .ok (mapInsert [] "Acme" (defaultSettings "Acme")) ∧
      get_project_settings (mapInsert [] "Acme" (defaultSettings "Acme")) "Acme" =
        some (defaultSettings "Acme") ∧
      defaultSettings "Acme" =
        { wordpress_url := "", wordpress_user := "", wordpress_pass := "",
          tool_name := "Acme", article_goal_prompt := "", example_url := "",
          sections := [], text_generation_model := "gpt-4o",
          target_word_count := 1000 }) :=
  ⟨(create_project_correct [] "  ").1 (by decide),
   (create_project_correct [] "Acme").2.2 (by decide) (by decide)⟩

/-- C5: `save_project_settings` and `delete_project` both fail with the
not-found error on an absent name; on a present name the save overwrites the
whole record (a following lookup returns exactly the given settings) and the
delete removes it (the listing no longer contains the name). -/
theorem save_delete_correct (m : ProjectsMap) (name : String)
    (settings : ProjectSettings) :
    (mapContains m name = false →
      save_project_settings m name settings = .error (notFoundMsg name) ∧
      delete_project m name = .error (notFoundMsg name)) ∧
    (mapContains m name = true →
      save_project_settings m name settings = .ok (mapInsert m name settings) ∧
      mapGet (mapInsert m name settings) name = some settings ∧
      delete_project m name = .ok (mapRemove m name) ∧
      name ∉ get_projects (mapRemove m name)) := by
  constructor
  · intro h
    constructor
    · simp [save_project_settings, h]
    · simp [delete_project, h]
  · intro h
    refine ⟨by simp [save_project_settings, h], ?_, by simp [delete_project, h], ?_⟩
    · simp [mapGet, mapInsert, List.find?]
    · intro hmem
      rw [get_projects, List.mem_insertionSort] at hmem
      simp [mapRemove, List.mem_filter] at hmem

/-- C5 witness: on a one-project store, save and delete behave as stated for
the present name, and both report not-found for an absent name. -/
theorem save_delete_correct_witness :
    (save_project_settings [] "Acme" (defaultSettings "Other") =
        .error (notFoundMsg "Acme") ∧
      delete_project [] "Acme" = .error (notFoundMsg "Acme")) ∧
    (save_project_settings [("Acme", defaultSettings "Acme")] "Acme"
          (defaultSettings "Other") =
        .ok (mapInsert [("Acme", defaultSettings "Acme")] "Acme"
          (defaultSettings "Other")) ∧
      mapGet (mapInsert [("Acme", defaultSettings "Acme")] "Acme"
          (defaultSettings "Other")) "Acme" = some (defaultSettings "Other") ∧
      delete_project [("Acme", defaultSettings "Acme")] "Acme" =
        .ok (mapRemove [("Acme", defaultSettings "Acme")] "Acme") ∧
      "Acme" ∉ get_projects (mapRemove [("Acme", defaultSettings "Acme")] "Acme")) :=
  ⟨(save_delete_correct [] "Acme" (defaultSettings "Other")).1 (by decide),
   (save_delete_correct [("Acme", defaultSettings "Acme")] "Acme"
      (defaultSettings "Other")).2 (by decide)⟩

/-- C6: whenever any of the project's WordPress URL, user, or password is
blank (empty or whitespace-only), each of the three CMS commands fails with
its not-configured error and its result is independent of the network
environment — no network I/O can influence it. -/
theorem wp_blank_fails_fast (s : ProjectSettings) (project_name : String)
    (hblank : trimIsEmpty s.wordpress_url = true ∨
      trimIsEmpty s.wordpress_user = true ∨ trimIsEmpty s.wordpress_pass = true) :
    (∀ ps cid net net2,
      publish_to_wordpress (some s) project_name ps cid net =
        publish_to_wordpress (some s) project_name ps cid net2 ∧
      ∃ e, publish_to_wordpress (some s) project_name ps cid net = .error e ∧
        (e = "WordPress URL is not configured in project settings." ∨
         e = "WordPress User is not configured in project settings." ∨
         e = "WordPress Application Password is not configured.")) ∧
    (∀ net net2,
      get_wordpress_categories (some s) project_name net =
        get_wordpress_categories (some s) project_name net2 ∧
      get_wordpress_categories (some s) project_name net =
        .error wpNotConfiguredMsg) ∧
    (∀ urls envs envs2,
      upload_images_to_wordpress (some s) project_name urls envs =
        upload_images_to_wordpress (some s) project_name urls envs2 ∧
      upload_images_to_wordpress (some s) project_name urls envs =
        .error wpNotConfiguredMsg) := by
  have hb : wpBlank s = true := by
    simp only [wpBlank, Bool.or_eq_true]
    tauto
  refine ⟨fun ps cid net net2 => ?_, fun net net2 => ?_, fun urls envs envs2 => ?_⟩
  · rcases hblank with h1 | h1 | h1
    · simp [publish_to_wordpress, h1]
    · cases h0 : trimIsEmpty s.wordpress_url <;>
        simp [publish_to_wordpress, h0, h1]
    · cases h0 : trimIsEmpty s.wordpress_url <;>
        cases h2 : trimIsEmpty s.wordpress_user <;>
          simp [publish_to_wordpress, h0, h1, h2]
  · simp [get_wordpress_categories, hb]
  · simp [upload_images_to_wordpress, hb]

/-- A project whose password is whitespace-only but whose URL and user are
set; used to exercise the blank-credentials guards. -/
def blankPassSettings : ProjectSettings :=
  { wordpress_url := "https://x.example"
    wordpress_user := "u"
    wordpress_pass := " "
    tool_name := "Acme"
    article_goal_prompt := ""
    example_url := ""
    sections := []
    text_generation_model := "gpt-4o"
    target_word_count := 1000 }

/-- A per-image network environment that would fail immediately if consulted. -/
def deadImageEnv : ImageEnv :=
  { download := .sendErr "down"
    upload := fun _ => .sendErr "up" }

/-- C6 witness: a project with a whitespace-only password and otherwise valid
credentials is rejected by all three CMS commands with the not-configured
errors. -/
theorem wp_blank_fails_fast_witness :
    (publish_to_wordpress (some blankPassSettings) "Acme" none none
        (.resp 200 "ok") =
      .error "WordPress Application Password is not configured.") ∧
    (get_wordpress_categories (some blankPassSettings) "Acme"
        (.resp 200 (.ok []) "") =
      .error wpNotConfiguredMsg) ∧
    (upload_images_to_wordpress (some blankPassSettings) "Acme"
        ["https://img.example/a.png"] (fun _ => deadImageEnv) =
      .error wpNotConfiguredMsg) := by
  have h := wp_blank_fails_fast blankPassSettings "Acme"
    (Or.inr (Or.inr (by decide)))
  refine ⟨?_, (h.2.1 (.resp 200 (.ok []) "") (.sendErr "x")).2,
    (h.2.2 ["https://img.example/a.png"] (fun _ => deadImageEnv)
      (fun _ => deadImageEnv)).2⟩
  obtain ⟨e, he, hcases⟩ := (h.1 none none (.resp 200 "ok") (.sendErr "x")).2
  rw [he]
  rcases hcases with rfl | rfl | rfl
  · exact absurd he (by decide)
  · exact absurd he (by decide)
  · rfl

/-- One 429 iteration of the retry loop below the attempt cap: record the
computed wait and continue with the next attempt. -/
theorem uploadLoop_429_step (image_url : String) (env : Nat → UploadAttemptOutcome)
    (attempts : Nat) (ra : RetryAfterHeader)
    (p : Except String WordPressMediaResponse) (b : String)
    (henv : env (attempts + 1) = .resp 429 ra p b)
    (hlt : attempts + 1 < MAX_RETRIES) :
    uploadLoop image_url env attempts =
      ((uploadLoop image_url env (attempts + 1)).1,
       retryWaitSecs (attempts + 1) ra ::
         (uploadLoop image_url env (attempts + 1)).2) := by
  rw [uploadLoop]
  simp only [henv]
  rw [dif_neg (Nat.not_le.mpr hlt)]
  simp

/-- A 429 on the capped attempt terminates the loop with the rate-limited
failure. -/
theorem uploadLoop_429_final (image_url : String) (env : Nat → UploadAttemptOutcome)
    (attempts : Nat) (ra : RetryAfterHeader)
    (p : Except String WordPressMediaResponse) (b : String)
    (henv : env (attempts + 1) = .resp 429 ra p b)
    (hge : MAX_RETRIES ≤ attempts + 1) :
    uploadLoop image_url env attempts =
      (uploadFailure image_url
        ("Upload failed after " ++ toString (attempts + 1) ++
          " attempts due to rate limiting (429)."), []) := by
  rw [uploadLoop]
  simp only [henv]
  rw [dif_pos hge]
  simp

/-- C1: when the media endpoint answers 429 on the first four upload attempts
(with any per-attempt `Retry-After` headers `hs`, parse results `ps`, bodies
`bs`), the retry loop stops with the rate-limited failure for this image after
exactly those four attempts — the result never depends on what a fifth
attempt would return — and exactly three waits are performed, after the
failed attempts 1, 2 and 3; the wait after a failed attempt `k` is the parsed
`Retry-After` value floored at one second when the header is present and
parseable, and `10 * 2 ^ (k - 1)` seconds when it is absent or unparseable. -/
theorem rate_limit_retry_behavior (image_url : String)
    (env : Nat → UploadAttemptOutcome) (hs : Nat → RetryAfterHeader)
    (ps : Nat → Except String WordPressMediaResponse) (bs : Nat → String)
    (h429 : ∀ k, 1 ≤ k → k ≤ MAX_RETRIES → env k = .resp 429 (hs k) (ps k) (bs k)) :
    uploadLoop image_url env 0 =
      (uploadFailure image_url
        "Upload failed after 4 attempts due to rate limiting (429).",
       [retryWaitSecs 1 (hs 1), retryWaitSecs 2 (hs 2), retryWaitSecs 3 (hs 3)]) ∧
    (∀ k n, retryWaitSecs k (.parsed n) = max n 1) ∧
    (∀ k, retryWaitSecs k .absent = 10 * 2 ^ (k - 1)) ∧
    (∀ k, retryWaitSecs k .invalid = 10 * 2 ^ (k - 1)) := by
  refine ⟨?_, fun k n => rfl, fun k => rfl, fun k => rfl⟩
  have e1 := h429 1 (by norm_num) (by norm_num [MAX_RETRIES])
  have e2 := h429 2 (by norm_num) (by norm_num [MAX_RETRIES])
  have e3 := h429 3 (by norm_num) (by norm_num [MAX_RETRIES])
  have e4 := h429 4 (by norm_num) (by norm_num [MAX_RETRIES])
  have s1 := uploadLoop_429_step image_url env 0 (hs 1) (ps 1) (bs 1) e1
    (by norm_num [MAX_RETRIES])
  have s2 := uploadLoop_429_step image_url env 1 (hs 2) (ps 2) (bs 2) e2
    (by norm_num [MAX_RETRIES])
  have s3 := uploadLoop_429_step image_url env 2 (hs 3) (ps 3) (bs 3) e3
    (by norm_num [MAX_RETRIES])
  have s4 := uploadLoop_429_final image_url env 3 (hs 4) (ps 4) (bs 4) e4
    (by norm_num [MAX_RETRIES])
  norm_num at s1 s2 s3 s4
  rw [s1, s2, s3, s4]
  rfl

/-- C1 witness: with no `Retry-After` header on any attempt, the loop fails
rate-limited after four attempts having waited 10, 20 and 40 seconds. -/
theorem rate_limit_retry_behavior_witness :
    uploadLoop "https://img.example/a.png"
      (fun _ => .resp 429 .absent (.error "rate limited") "too many requests") 0 =
      (uploadFailure "https://img.example/a.png"
        "Upload failed after 4 attempts due to rate limiting (429).",
       [10, 20, 40]) := by
  have h := rate_limit_retry_behavior "https://img.example/a.png"
    (fun _ => .resp 429 .absent (.error "rate limited") "too many requests")
    (fun _ => .absent) (fun _ => .error "rate limited")
    (fun _ => "too many requests") (fun _ _ _ => rfl)
  simpa [retryWaitSecs, backoffSecs, INITIAL_BACKOFF_SECS] using h.1

/-- Every branch of the retry loop labels its result with the input URL
(fuel-indexed so the well-founded recursion can be unfolded). -/
theorem uploadLoop_original_url_aux (fuel : Nat) :
    ∀ (image_url : String) (env : Nat → UploadAttemptOutcome) (attempts : Nat),
      MAX_RETRIES - attempts ≤ fuel →
      ((uploadLoop image_url env attempts).1).original_url = image_url := by
  induction fuel with
  | zero =>
    intro image_url env attempts h
    rw [uploadLoop]
    dsimp only
    cases henv : env (attempts + 1) with
    | sendErr e => rfl
    | resp status ra p b =>
      dsimp only
      split
      · cases p <;> rfl
      · split
        · split
          · rfl
          · exfalso
            simp [MAX_RETRIES] at *
            omega
        · rfl
  | succ n ih =>
    intro image_url env attempts h
    rw [uploadLoop]
    dsimp only
    cases henv : env (attempts + 1) with
    | sendErr e => rfl
    | resp status ra p b =>
      dsimp only
      split
      · cases p <;> rfl
      · split
        · split
          · rfl
          · exact ih image_url env (attempts + 1) (by simp [MAX_RETRIES] at *; omega)
        · rfl

/-- Every branch of `process_single_image_upload` labels its result with the
input URL. -/
theorem process_single_image_upload_original_url (image_url : String)
    (env : ImageEnv) :
    ((process_single_image_upload image_url env).1).original_url = image_url := by
  unfold process_single_image_upload
  split
  · rfl
  · split
    · split
      · rfl
      · exact uploadLoop_original_url_aux MAX_RETRIES image_url _ 0 (by omega)
    · rfl

/-- The upload batch produces one result per input URL. -/
theorem uploadBatch_length (envs : Nat → ImageEnv) :
    ∀ (urls : List String) (i : Nat), (uploadBatch envs i urls).length = urls.length := by
  intro urls
  induction urls with
  | nil => intro i; rfl
  | cons u rest ih => intro i; simp [uploadBatch, ih]

/-- The j-th batch result is the single-image procedure run on the j-th URL
with the j-th environment. -/
theorem uploadBatch_getElem (envs : Nat → ImageEnv) :
    ∀ (urls : List String) (i j : Nat) (hj : j < urls.length),
      (uploadBatch envs i urls)[j]? =
        some (process_single_image_upload (urls.get ⟨j, hj⟩) (envs (i + j))).1 := by
  intro urls
  induction urls with
  | nil => intro i j hj; exact absurd hj (by simp)
  | cons u rest ih =>
    intro i j hj
    cases j with
    | zero => simp [uploadBatch]
    | succ k =>
      have hk : k < rest.length := by simpa using hj
      have heq : i + (k + 1) = (i + 1) + k := by omega
      simp only [uploadBatch, List.getElem?_cons_succ, List.get_cons_succ, heq]
      exact ih (i + 1) k hk

/-- C2: with configured credentials, `upload_images_to_wordpress` succeeds
with exactly one result per input URL, in input order: the j-th result is the
single-image upload procedure applied to the j-th URL and carries that URL,
and it depends only on that item's own network environment — failures of
other items cannot change it. -/
theorem upload_batch_shape (s : ProjectSettings) (project_name : String)
    (image_urls : List String) (envs : Nat → ImageEnv)
    (hconf : wpBlank s = false) :
    ∃ results,
      upload_images_to_wordpress (some s) project_name image_urls envs =
        .ok results ∧
      results.length = image_urls.length ∧
      (∀ j (hj : j < image_urls.length),
        results[j]? =
          some (process_single_image_upload (image_urls.get ⟨j, hj⟩) (envs j)).1 ∧
        results[j]?.map ImageUploadResult.original_url =
          some (image_urls.get ⟨j, hj⟩)) ∧
      (∀ (envs2 : Nat → ImageEnv) (j : Nat), envs2 j = envs j →
        (uploadBatch envs2 0 image_urls)[j]? = results[j]?) := by
  refine ⟨uploadBatch envs 0 image_urls, ?_, uploadBatch_length envs image_urls 0,
    fun j hj => ?_, fun envs2 j hj => ?_⟩
  · simp [upload_images_to_wordpress, hconf]
  · have h := uploadBatch_getElem envs image_urls 0 j hj
    simp only [Nat.zero_add] at h
    refine ⟨h, ?_⟩
    rw [h]
    simp [process_single_image_upload_original_url]
  · by_cases hlt : j < image_urls.length
    · have h1 := uploadBatch_getElem envs image_urls 0 j hlt
      have h2 := uploadBatch_getElem envs2 image_urls 0 j hlt
      simp only [Nat.zero_add] at h1 h2
      rw [h1, h2, hj]
    · have h1 : (uploadBatch envs 0 image_urls).length ≤ j := by
        rw [uploadBatch_length]; omega
      have h2 : (uploadBatch envs2 0 image_urls).length ≤ j := by
        rw [uploadBatch_length]; omega
      rw [List.getElem?_eq_none h1, List.getElem?_eq_none h2]

/-- A fully configured project used by batch-upload witnesses. -/
def configuredSettings : ProjectSettings :=
  { wordpress_url := "https://x.example"
    wordpress_user := "u"
    wordpress_pass := "p"
    tool_name := "Acme"
    article_goal_prompt := ""
    example_url := ""
    sections := []
    text_generation_model := "gpt-4o"
    target_word_count := 1000 }

/-- Demo batch environments: item 0 downloads and uploads cleanly (media id
7), item 1 fails at download. -/
def demoEnvs : Nat → ImageEnv := fun i =>
  if i = 0 then
    { download := .resp 200 (.ok ())
      upload := fun _ => .resp 200 .absent (.ok ⟨7, "https://cms/x.png"⟩) "" }
  else
    { download := .sendErr "connection refused"
      upload := fun _ => .sendErr "unused" }

/-- C2 witness: two URLs where the second item's download fails still yield a
two-element result list. -/
theorem upload_batch_shape_witness :
    ∃ results,
      upload_images_to_wordpress (some configuredSettings) "Acme"
        ["https://a/x.png", "https://a/y.png"] demoEnvs = .ok results ∧
      results.length = 2 := by
  obtain ⟨results, h1, h2, -, -⟩ := upload_batch_shape configuredSettings "Acme"
    ["https://a/x.png", "https://a/y.png"] demoEnvs (by decide)
  exact ⟨results, h1, by simp [h2]⟩

/-- C7 counterexample: in `get_article_with_image_placeholders_llm` a 2xx
response whose body does not match the expected response shape is converted
into a success carrying the trimmed raw body — it is not surfaced as a parse
error. -/
theorem parse_failure_returned_as_success :
    get_article_with_image_placeholders_llm "<html>A</html>"
      [⟨"https://cms/x.png", 7, "alt", 1⟩] (some "key")
      (.resp 200 "not json" (.error "expected value")) = .ok "not json" := by
  decide

/-- C7 amended: a 2xx body failing the expected-shape parse is surfaced as a
parse error by `generate_full_article` and `get_wordpress_categories`;
`suggest_image_prompts` first retries the raw body as a direct JSON
string-array parse and errors only when that fallback also fails;
`get_article_with_image_placeholders_llm` returns the trimmed raw body as a
success. -/
theorem parse_error_propagation (key : List Nat) (s : ProjectSettings)
    (project_name k article : String) (images : List ImageDetailsForLLM)
    (status : Nat) (body e fe : String) (prompts : List String)
    (parseStringArray : String → Except String (List String)) :
    (byteSliceUpTo key 10 ≠ none → key.isEmpty = false →
      statusIsSuccess status = true →
      generate_full_article (some key) (.resp status body (.error e)) =
        some (.error
          ("Failed to parse OpenAI response into expected structure: " ++ e))) ∧
    (wpBlank s = false → statusIsSuccess status = true →
      get_wordpress_categories (some s) project_name
          (.resp status (.error e) body) =
        .error ("Failed to parse WordPress categories JSON: " ++ e)) ∧
    (statusIsSuccess status = true → parseStringArray body = .error fe →
      suggest_image_prompts (some k) (.resp status body (.error e))
          parseStringArray =
        .error ("Failed to parse OpenAI response: " ++ e ++
          ". Fallback failed: " ++ fe)) ∧
    (statusIsSuccess status = true → parseStringArray body = .ok prompts →
      suggest_image_prompts (some k) (.resp status body (.error e))
          parseStringArray = .ok prompts) ∧
    (images.isEmpty = false → statusIsSuccess status = true →
      get_article_with_image_placeholders_llm article images (some k)
        (.resp status body (.error e)) = .ok (rustTrim body)) := by
  refine ⟨fun hsl hne hst => ?_, fun hconf hst => ?_, fun hst hfb => ?_,
    fun hst hfb => ?_, fun himg hst => ?_⟩
  · cases hsl2 : byteSliceUpTo key 10 with
    | none => exact absurd hsl2 hsl
    | some pre => simp [generate_full_article, hsl2, hne, hst]
  · simp [get_wordpress_categories, hconf, hst]
  · simp [suggest_image_prompts, hst, hfb]
  · simp [suggest_image_prompts, hst, hfb]
  · simp [get_article_with_image_placeholders_llm, himg, hst]

/-- An eleven-byte ASCII key for exercising the key-prefix slice. -/
def demoKeyBytes : List Nat := [115, 107, 45, 97, 98, 99, 100, 101, 102, 103, 104]

/-- C7 amended witness: all five parse-outcome behaviors at concrete inputs. -/
theorem parse_error_propagation_witness :
    (generate_full_article (some demoKeyBytes) (.resp 200 "oops" (.error "bad")) =
      some (.error
        "Failed to parse OpenAI response into expected structure: bad")) ∧
    (get_wordpress_categories (some configuredSettings) "Acme"
        (.resp 200 (.error "bad") "oops") =
      .error "Failed to parse WordPress categories JSON: bad") ∧
    (suggest_image_prompts (some "key") (.resp 200 "oops" (.error "bad"))
        (fun _ => .error "not an array") =
      .error "Failed to parse OpenAI response: bad. Fallback failed: not an array") ∧
    (suggest_image_prompts (some "key") (.resp 200 "oops" (.error "bad"))
        (fun _ => .ok ["p1"]) = .ok ["p1"]) ∧
    (get_article_with_image_placeholders_llm "<html>A</html>"
        [⟨"https://cms/x.png", 7, "alt", 1⟩] (some "key")
        (.resp 200 " raw " (.error "bad")) = .ok (rustTrim " raw ")) := by
  have h1 := parse_error_propagation demoKeyBytes configuredSettings "Acme" "key"
    "<html>A</html>" [⟨"https://cms/x.png", 7, "alt", 1⟩] 200 "oops" "bad"
    "not an array" ["p1"] (fun _ => .error "not an array")
  have h2 := parse_error_propagation demoKeyBytes configuredSettings "Acme" "key"
    "<html>A</html>" [⟨"https://cms/x.png", 7, "alt", 1⟩] 200 " raw " "bad"
    "not an array" ["p1"] (fun _ => .ok ["p1"])
  exact ⟨h1.1 (by decide) (by decide) (by decide), h1.2.1 (by decide) (by decide),
    h1.2.2.1 (by decide) rfl, h2.2.2.2.1 (by decide) rfl,
    h2.2.2.2.2 (by decide) (by decide)⟩

/-- C8 counterexample: with one image, a successfully parsed 2xx response
whose content contains the image's placeholder token zero times is still
returned as a success — no placeholder-count validation happens. -/
theorem placeholder_count_not_validated :
    get_article_with_image_placeholders_llm "<html>A</html>"
      [⟨"https://cms/x.png", 7, "alt", 1⟩] (some "key")
      (.resp 200 "raw" (.ok ⟨[⟨⟨none, "<html>no images</html>"⟩⟩]⟩)) =
      .ok "<html>no images</html>" ∧
    countOccurrences "<html>no images</html>" (placeholderToken 1) = 0 := by
  constructor
  · decide
  · decide

/-- C8 amended: `get_article_with_image_placeholders_llm` performs no
placeholder-count validation — for every non-empty image list, a 2xx response
that parses with at least one choice is returned as a success carrying that
choice's trimmed content, whatever the placeholder counts in it. -/
theorem placeholders_merge_unvalidated (article : String)
    (images : List ImageDetailsForLLM) (k body : String) (status : Nat)
    (parsed_response : OpenAiApiResponse) (choice : OpenAiApiResponseChoice)
    (himg : images.isEmpty = false) (hst : statusIsSuccess status = true)
    (hch : parsed_response.choices.head? = some choice) :
    get_article_with_image_placeholders_llm article images (some k)
      (.resp status body (.ok parsed_response)) =
      .ok (rustTrim choice.message.content) := by
  simp [get_article_with_image_placeholders_llm, himg, hst, hch]

/-- C8 amended witness: a parsed response omitting the placeholder is
returned as success. -/
theorem placeholders_merge_unvalidated_witness :
    get_article_with_image_placeholders_llm "<html>A</html>"
      [⟨"https://cms/x.png", 7, "alt", 1⟩] (some "key")
      (.resp 200 "raw" (.ok ⟨[⟨⟨none, "<p>B</p>"⟩⟩]⟩)) =
      .ok (rustTrim "<p>B</p>") :=
  placeholders_merge_unvalidated "<html>A</html>"
    [⟨"https://cms/x.png", 7, "alt", 1⟩] "key" "raw" 200
    ⟨[⟨⟨none, "<p>B</p>"⟩⟩]⟩ ⟨⟨none, "<p>B</p>"⟩⟩ (by decide) (by decide) rfl

/-- C10: `generate_full_article` panics (modelled as `none`) whenever the
stored text API key is shorter than 10 bytes, and more generally whenever
byte offset 10 is not a UTF-8 character boundary of the key; when offset 10
is a boundary the key is at least 10 bytes long and the command reaches a
normal result value. -/
theorem api_key_slice_partiality (key : List Nat) (net : OpenAiNet) :
    (key.length < 10 → generate_full_article (some key) net = none) ∧
    (isUtf8Boundary key 10 = false → generate_full_article (some key) net = none) ∧
    (isUtf8Boundary key 10 = true →
      10 ≤ key.length ∧ (generate_full_article (some key) net).isSome = true) := by
  have hb10 : isUtf8Boundary key 10 = true → 10 ≤ key.length := by
    intro h
    by_contra hlt
    have hnone : key[10]? = none := List.getElem?_eq_none (by omega)
    simp [isUtf8Boundary, hnone] at h
    omega
  refine ⟨fun hshort => ?_, fun hbf => ?_, fun hbt => ⟨hb10 hbt, ?_⟩⟩
  · have hnone : key[10]? = none := List.getElem?_eq_none (by omega)
    have hbf : isUtf8Boundary key 10 = false := by
      simp [isUtf8Boundary, hnone]
      omega
    simp [generate_full_article, byteSliceUpTo, hbf]
  · simp [generate_full_article, byteSliceUpTo, hbf]
  · have hne : key.isEmpty = false := by
      cases key with
      | nil => exact absurd (hb10 hbt) (by simp)
      | cons a l => rfl
    simp only [generate_full_article, byteSliceUpTo, hbt, if_true, hne,
      Bool.false_eq_true, if_false]
    cases net with
    | sendErr e => rfl
    | readErr e => rfl
    | resp status body parsed =>
      dsimp only
      split
      · cases parsed with
        | error e => rfl
        | ok pr =>
          dsimp only
          cases pr.choices.head? <;> rfl
      · rfl

/-- C10 witness: a three-byte key panics; an eleven-byte ASCII key reaches a
normal result; a key whose byte 10 is a UTF-8 continuation byte panics. -/
theorem api_key_slice_partiality_witness :
    generate_full_article (some [107, 101, 121]) (.sendErr "x") = none ∧
    (10 ≤ demoKeyBytes.length ∧
      (generate_full_article (some demoKeyBytes) (.sendErr "x")).isSome = true) ∧
    generate_full_article
      (some [97, 97, 97, 97, 97, 97, 97, 97, 97, 206, 178, 97]) (.sendErr "x") =
      none :=
  ⟨(api_key_slice_partiality [107, 101, 121] (.sendErr "x")).1 (by decide),
   (api_key_slice_partiality demoKeyBytes (.sendErr "x")).2.2 (by decide),
   (api_key_slice_partiality [97, 97, 97, 97, 97, 97, 97, 97, 97, 206, 178, 97]
      (.sendErr "x")).2.1 (by decide)⟩

end GenArticle
